import Mathlib

/-!
Shallow embedding of getsolus/libosdev (Go): the `commands` package
(process execution helpers), the `disk` package (CopyFile, sparse files,
squashfs creation, filesystem format/check registry) and the `pkg`
package (EopkgManager lifecycle), together with theorems checking the
natural-language specification against this embedding.

External effects (process spawns, file system calls, mounts) are modelled
by environment records of oracles, and every modelled operation returns
its result together with a trace of the externally visible events it
performed, so that claims about "no external invocation happened" or
about argument construction can be stated as facts about the trace.
-/

namespace Libosdev

/-! ### Go `path/filepath` (unix flavour): Clean, Dir, Abs, Join -/

/-- One step of the lexical cleaning algorithm of Go `filepath.Clean`:
push one path component onto the (reversed) stack of kept components. -/
def cleanPush (rooted : Bool) (stack : List String) (c : String) : List String :=
  if c = "" || c = "." then stack
  else if c = ".." then
    match stack with
    | [] => if rooted then [] else [".."]
    | top :: rest => if top = ".." then c :: top :: rest else rest
  else c :: stack

/-- Split a character list on slashes (the components of a unix path,
as Go `strings.Split(path, "/")` produces them). -/
def splitSlashAux : List Char → List Char → List String
  | [], acc => [String.mk acc.reverse]
  | c :: rest, acc =>
    if c = '/' then String.mk acc.reverse :: splitSlashAux rest []
    else splitSlashAux rest (c :: acc)

/-- The slash-separated components of a path. -/
def splitSlash (s : String) : List String := splitSlashAux s.toList []

/-- Join path components with slashes (Go `strings.Join(elems, "/")`). -/
def joinSlash : List String → String
  | [] => ""
  | [a] => a
  | a :: b :: rest => a ++ "/" ++ joinSlash (b :: rest)

/-- Whether a path is rooted (begins with a slash). -/
def isRooted (s : String) : Bool :=
  match s.toList with
  | [] => false
  | c :: _ => c = '/'

/-- Go `filepath.Clean` for unix paths, via the component stack. -/
def Clean (path : String) : String :=
  if path = "" then "." else
  let rooted := isRooted path
  let comps := (splitSlash path).foldl (cleanPush rooted) []
  let joined := joinSlash comps.reverse
  if rooted then
    if joined = "" then "/" else "/" ++ joined
  else
    if joined = "" then "." else joined

/-- The prefix of `path` up to and including its last slash
(empty when `path` has no slash), as in Go `filepath.Dir`. -/
def dirSplit (path : String) : String :=
  String.mk ((path.toList.reverse.dropWhile (fun c => c ≠ '/')).reverse)

/-- Go `filepath.Dir` for unix paths. -/
def Dir (path : String) : String := Clean (dirSplit path)

/-- Go `filepath.Join` for unix paths: drop empty elements, join with
slashes, clean; all-empty input yields the empty string. -/
def filepathJoin (elems : List String) : String :=
  let nonEmpty := elems.filter (fun s => s ≠ "")
  if nonEmpty = [] then "" else Clean (joinSlash nonEmpty)

/-- Go `filepath.Abs`: absolute paths are cleaned; relative ones are
joined onto the working directory `cwd`, which `os.Getwd` provides only
when `getwdOk` holds. -/
def fAbs (cwd : String) (getwdOk : Bool) (path : String) : Except String String :=
  if isRooted path then Except.ok (Clean path)
  else if getwdOk then Except.ok (filepathJoin [cwd, path])
  else Except.error "getwd failed"

/-! ### Externally visible events -/

/-- Modelled from the spec: the mount/device capability consumed by the
orchestrator creates well-known device nodes (random, urandom) under a
root; the `disk` constants `DevNodeRandom`/`DevNodeURandom` are not part
of the provided sources. -/
inductive DeviceNode where
  | random
  | urandom
  deriving Repr, DecidableEq

/-- Externally visible effects performed by the modelled operations. -/
inductive Event where
  | spawnEv (dir : Option String) (command : String) (args : List String)
  | mkdirEv (path : String)
  | symlinkEv (target : String) (linkName : String)
  | bindMountEv (source : String) (target : String)
  | unmountEv (target : String)
  | statEv (path : String)
  | openReadEv (path : String)
  | openWriteEv (path : String)
  | writeEv (path : String)
  | chtimesEv (path : String)
  | readDirEv (path : String)
  | readFileEv (path : String)
  | removeEv (path : String)
  | mknodEv (root : String) (node : DeviceNode)
  deriving Repr, DecidableEq

/-- Whether an event is the spawning of an external process. -/
def isSpawn : Event → Bool
  | .spawnEv _ _ _ => true
  | _ => false

/-! ### The `commands` package -/

/-- Oracle for the process-execution capability: `lookPath` resolves a
bare command name on the search path, `run` gives the exit result of a
spawned process (working directory, resolved command, arguments). -/
structure CmdEnv where
  lookPath : String → Except String String
  run : Option String → String → List String → Except String Unit

/-- `commands.execHelper`: resolve the command on the search path unless
it already contains a path separator. -/
def execHelper (env : CmdEnv) (command : String) : Except String String :=
  if command.toList.contains '/' then Except.ok command
  else env.lookPath command

/-- `commands.ExecStdoutArgs`: run a command (inherited streams, no
working-directory override). -/
def ExecStdoutArgs (env : CmdEnv) (command : String) (args : List String) :
    Except String Unit × List Event :=
  match execHelper env command with
  | Except.error e => (Except.error e, [])
  | Except.ok cmd => (env.run none cmd args, [Event.spawnEv none cmd args])

/-- `commands.ExecStdoutArgsDir`: run a command in the given working
directory. -/
def ExecStdoutArgsDir (env : CmdEnv) (dir command : String) (args : List String) :
    Except String Unit × List Event :=
  match execHelper env command with
  | Except.error e => (Except.error e, [])
  | Except.ok cmd => (env.run (some dir) cmd args, [Event.spawnEv (some dir) cmd args])

/-- `commands.ChrootExec`: run a shell command inside a chroot. -/
def ChrootExec (env : CmdEnv) (dir command : String) :
    Except String Unit × List Event :=
  ExecStdoutArgs env "chroot" [dir, "/bin/sh", "-c", command]

/-- `commands.AddGroup`: add a group inside the chroot. -/
def AddGroup (env : CmdEnv) (root groupName : String) (groupID : Int) :
    Except String Unit × List Event :=
  ChrootExec env root
    ("/usr/sbin/groupadd -g " ++ toString groupID ++ " \"" ++ groupName ++ "\"")

/-- `commands.AddSystemUser`: add a system user inside the chroot. -/
def AddSystemUser (env : CmdEnv) (root userName gecos home shell : String)
    (uid gid : Int) : Except String Unit × List Event :=
  ChrootExec env root
    ("/usr/sbin/useradd -m -d \"" ++ home ++ "\" -r -s \"" ++ shell ++
      "\" -u " ++ toString uid ++ " -g " ++ toString gid ++ " \"" ++
      userName ++ "\" -c \"" ++ gecos ++ "\"")

/-! ### The `disk` package: CopyFile -/

/-- The slice of `os.FileInfo` the modelled code consults. -/
structure FileInfo where
  mode : Nat
  isDir : Bool
  modTime : Int
  deriving Repr, DecidableEq

/-- Oracle for the plain file operations used by `disk.CopyFile`. -/
structure FsEnv where
  stat : String → Except String FileInfo
  openRead : String → Except String Unit
  openWrite : String → Except String Unit
  copyData : String → String → Except String Unit

/-- `disk.CopyFile`: stat the source (a stat failure returns success!),
open source, create/truncate dest with the source mode, copy the bytes,
then best-effort copy the timestamps. -/
def CopyFile (env : FsEnv) (source dest : String) :
    Except String Unit × List Event :=
  match env.stat source with
  | Except.error _ => (Except.ok (), [Event.statEv source])
  | Except.ok _ =>
    match env.openRead source with
    | Except.error e => (Except.error e, [Event.statEv source, Event.openReadEv source])
    | Except.ok _ =>
      match env.openWrite dest with
      | Except.error e =>
          (Except.error e,
            [Event.statEv source, Event.openReadEv source, Event.openWriteEv dest])
      | Except.ok _ =>
        match env.copyData source dest with
        | Except.error e =>
            (Except.error e,
              [Event.statEv source, Event.openReadEv source,
                Event.openWriteEv dest, Event.writeEv dest])
        | Except.ok _ =>
            (Except.ok (),
              [Event.statEv source, Event.openReadEv source,
                Event.openWriteEv dest, Event.writeEv dest, Event.chtimesEv dest])

/-! ### The `disk` package: sparse files and squashfs -/

/-- Wrap a mathematical integer to Go's 64-bit `int`/`int64`
(two's-complement wraparound). -/
def toInt64 (n : Int) : Int :=
  (n + 2 ^ 63) % 2 ^ 64 - 2 ^ 63

/-- Oracle for `disk.CreateSparseFile`: whether the `os.OpenFile`
creation succeeds and whether the filesystem accepts a (non-negative)
`ftruncate` length. -/
structure SparseEnv where
  openOk : Bool
  ftruncateOk : Bool

/-- `disk.CreateSparseFile`: create/truncate the file, then
`ftruncate` it to `int64(nMegabytes * 1000 * 1000)` bytes (the
multiplication is Go 64-bit `int` arithmetic and wraps); a negative
length is rejected by the syscall. The second component is the
resulting logical file size when the truncate happened. -/
def CreateSparseFile (env : SparseEnv) (filename : String) (nMegabytes : Int) :
    Except String Unit × Option Int :=
  if !env.openOk then (Except.error ("open " ++ filename ++ " failed"), none)
  else if toInt64 (nMegabytes * 1000 * 1000) < 0 then
    (Except.error "ftruncate: invalid argument", none)
  else if !env.ftruncateOk then (Except.error "ftruncate failed", none)
  else (Except.ok (), some (toInt64 (nMegabytes * 1000 * 1000)))

/-- `disk.CompressionGzip` (the `CompressionType` is a Go string type). -/
def CompressionGzip : String := "gzip"

/-- `disk.CompressionXZ`. -/
def CompressionXZ : String := "xz"

/-- `disk.GetSquashfsArgs`: compression argument set for a compression
type, rejecting anything outside the closed enumeration. -/
def GetSquashfsArgs (compressionType : String) : Except String (List String) :=
  if compressionType = CompressionGzip then Except.ok ["-comp", "gzip"]
  else if compressionType = CompressionXZ then Except.ok ["-comp", "xz"]
  else Except.error ("Unknown compression type: " ++ compressionType)

/-- Oracle for `disk.CreateSquashfs`: working directory and whether
`os.Getwd` works (for `filepath.Abs`), a stat oracle, and the process
capability. -/
structure SquashEnv where
  cwd : String
  getwdOk : Bool
  stat : String → Except String FileInfo
  cmdEnv : CmdEnv

/-- `disk.CreateSquashfs`: build `mksquashfs` arguments (source path,
output file, `-keep-as-directory` for directory sources, compression
args) and run the tool with its working directory set to the parent of
the absolute form of `path` (the source tree argument). -/
def CreateSquashfs (env : SquashEnv) (path outputFile compressionType : String) :
    Except String Unit × List Event :=
  let command := [path, outputFile]
  match fAbs env.cwd env.getwdOk path with
  | Except.error e => (Except.error e, [])
  | Except.ok fp =>
    let dirName := Dir fp
    match env.stat path with
    | Except.error e => (Except.error e, [Event.statEv path])
    | Except.ok st =>
      let command := if st.isDir then command ++ ["-keep-as-directory"] else command
      match GetSquashfsArgs compressionType with
      | Except.error e => (Except.error e, [Event.statEv path])
      | Except.ok execArgs =>
        let (r, tr) := ExecStdoutArgsDir env.cmdEnv dirName "mksquashfs"
          (command ++ execArgs)
        (r, Event.statEv path :: tr)

/-! ### The `disk` package: filesystem format/check registry -/

/-- `disk.formatExt4`: `mkfs -t ext4 -F`, then `tune2fs -c0 -i0`. -/
def formatExt4 (env : CmdEnv) (filename : String) :
    Except String Unit × List Event :=
  match ExecStdoutArgs env "mkfs" ["-t", "ext4", "-F", filename] with
  | (Except.error e, tr) => (Except.error e, tr)
  | (Except.ok _, tr1) =>
    let (r, tr2) := ExecStdoutArgs env "tune2fs" ["-c0", "-i0", filename]
    (r, tr1 ++ tr2)

/-- `disk.checkExt4`: `e2fsck -y`, then `e2fsck -y -f`. -/
def checkExt4 (env : CmdEnv) (filename : String) :
    Except String Unit × List Event :=
  match ExecStdoutArgs env "e2fsck" ["-y", filename] with
  | (Except.error e, tr) => (Except.error e, tr)
  | (Except.ok _, tr1) =>
    let (r, tr2) := ExecStdoutArgs env "e2fsck" ["-y", "-f", filename]
    (r, tr1 ++ tr2)

/-- The `filesystemCommands` registry built by `disk.init`: only
`"ext4"` is registered. -/
def filesystemCommands (filesystem : String) :
    Option (CmdEnv → String → Except String Unit × List Event) :=
  if filesystem = "ext4" then some formatExt4 else none

/-- The `checkCommands` registry built by `disk.init`: only `"ext4"`
is registered. -/
def checkCommands (filesystem : String) :
    Option (CmdEnv → String → Except String Unit × List Event) :=
  if filesystem = "ext4" then some checkExt4 else none

/-- `disk.FormatAs`: dispatch through the format registry. -/
def FormatAs (env : CmdEnv) (filename filesystem : String) :
    Except String Unit × List Event :=
  match filesystemCommands filesystem with
  | none =>
      (Except.error ("Cannot format with unknown filesystem '" ++ filesystem ++ "'"), [])
  | some command => command env filename

/-- `disk.CheckFS`: dispatch through the check registry. -/
def CheckFS (env : CmdEnv) (filename filesystem : String) :
    Except String Unit × List Event :=
  match checkCommands filesystem with
  | none =>
      (Except.error ("Cannot check with unknown filesystem '" ++ filesystem ++ "'"), [])
  | some command => command env filename

/-! ### The `pkg` package: EopkgManager -/

/-- `pkg.EopkgCacheDirectory`. -/
def EopkgCacheDirectory : String := "/var/lib/evobuild/packages"

/-- `pkg.EopkgManager`: the mutable fields of the manager. -/
structure EopkgManager where
  root : String
  cacheTarget : String
  targetMode : Bool
  dbusActive : Bool
  cacheSource : String
  deriving Repr, DecidableEq

/-- `pkg.NewEopkgManager`: Go zero values for the unset fields. -/
def NewEopkgManager : EopkgManager :=
  { root := "", cacheTarget := "", targetMode := false, dbusActive := false,
    cacheSource := EopkgCacheDirectory }

/-- `pkg.EopkgManager.SetCacheDirectory`. -/
def SetCacheDirectory (e : EopkgManager) (source : String) : EopkgManager :=
  { e with cacheSource := source }

/-- Oracle for the filesystem, mount and device capabilities the
`pkg` package consumes. `unmount`, `bindMount` and `createDeviceNode`
are the collaborators the spec lists as consumed mount/device
capabilities (their implementations are outside the provided sources). -/
structure PkgEnv where
  cmdEnv : CmdEnv
  fsEnv : FsEnv
  mkdirAll : String → Except String Unit
  symlink : String → String → Except String Unit
  bindMount : String → String → Except String Unit
  unmount : String → Except String Unit
  readDir : String → Except String (List String)
  openFile : String → Except String Unit
  readAll : String → Except String String
  createDeviceNode : String → DeviceNode → Except String Unit

/-- The directory-creation loop of `pkg.EopkgManager.InitRoot`. -/
def mkdirLoop (env : PkgEnv) (root : String) : List String →
    Except String Unit × List Event
  | [] => (Except.ok (), [])
  | d :: rest =>
    let dirPath := filepathJoin [root, d]
    match env.mkdirAll dirPath with
    | Except.error err => (Except.error err, [Event.mkdirEv dirPath])
    | Except.ok _ =>
      let (r, tr) := mkdirLoop env root rest
      (r, Event.mkdirEv dirPath :: tr)

/-- `pkg.EopkgManager.InitRoot`: record the root and enter target mode
first, then create the required directories, the cache source, the two
compatibility symlinks, and bind-mount the cache. -/
def InitRoot (env : PkgEnv) (e : EopkgManager) (root : String) :
    Except String Unit × EopkgManager × List Event :=
  let e1 := { e with root := root, targetMode := true }
  match mkdirLoop env root ["run/lock", "var", "var/cache/eopkg/packages"] with
  | (Except.error err, tr) => (Except.error err, e1, tr)
  | (Except.ok _, tr1) =>
    match env.mkdirAll e1.cacheSource with
    | Except.error err => (Except.error err, e1, tr1 ++ [Event.mkdirEv e1.cacheSource])
    | Except.ok _ =>
      let t2 := tr1 ++ [Event.mkdirEv e1.cacheSource]
      match env.symlink "../run/lock" (filepathJoin [root, "var", "lock"]) with
      | Except.error err =>
          (Except.error err, e1,
            t2 ++ [Event.symlinkEv "../run/lock" (filepathJoin [root, "var", "lock"])])
      | Except.ok _ =>
        let t3 := t2 ++ [Event.symlinkEv "../run/lock" (filepathJoin [root, "var", "lock"])]
        match env.symlink "../run" (filepathJoin [root, "var", "run"]) with
        | Except.error err =>
            (Except.error err, e1,
              t3 ++ [Event.symlinkEv "../run" (filepathJoin [root, "var", "run"])])
        | Except.ok _ =>
          let t4 := t3 ++ [Event.symlinkEv "../run" (filepathJoin [root, "var", "run"])]
          let e2 := { e1 with
            cacheTarget := filepathJoin [root, "var", "cache", "eopkg", "packages"] }
          match env.bindMount e2.cacheSource e2.cacheTarget with
          | Except.error err =>
              (Except.error err, e2,
                t4 ++ [Event.bindMountEv e2.cacheSource e2.cacheTarget])
          | Except.ok _ =>
              (Except.ok (), e2,
                t4 ++ [Event.bindMountEv e2.cacheSource e2.cacheTarget])

/-- The copy loop of `pkg.EopkgManager.copyBaselayout`. -/
def copyBaselayoutLoop (env : PkgEnv) (baseDir tgtDir : String) : List String →
    Except String Unit × List Event
  | [] => (Except.ok (), [])
  | f :: rest =>
    let srcPath := filepathJoin [baseDir, f]
    let tgtPath := filepathJoin [tgtDir, f]
    match CopyFile env.fsEnv srcPath tgtPath with
    | (Except.error e, tr) => (Except.error e, tr)
    | (Except.ok _, tr) =>
      let (r, tr2) := copyBaselayoutLoop env baseDir tgtDir rest
      (r, tr ++ tr2)

/-- `pkg.EopkgManager.copyBaselayout`: copy every entry of
`<root>/usr/share/baselayout` into `<root>/etc`. -/
def copyBaselayout (env : PkgEnv) (e : EopkgManager) :
    Except String Unit × List Event :=
  let baseDir := filepathJoin [e.root, "usr", "share", "baselayout"]
  let tgtDir := filepathJoin [e.root, "etc"]
  match env.readDir baseDir with
  | Except.error err => (Except.error err, [Event.readDirEv baseDir])
  | Except.ok files =>
    let (r, tr) := copyBaselayoutLoop env baseDir tgtDir files
    (r, Event.readDirEv baseDir :: tr)

/-- `pkg.EopkgManager.startDBUS`: no-op when already active, otherwise
`dbus-uuidgen --ensure` then `dbus-daemon --system` inside the root;
only after both succeed is the active flag set. -/
def startDBUS (env : PkgEnv) (e : EopkgManager) :
    Except String Unit × EopkgManager × List Event :=
  if e.dbusActive then (Except.ok (), e, [])
  else
    match ChrootExec env.cmdEnv e.root "dbus-uuidgen --ensure" with
    | (Except.error err, tr) => (Except.error err, e, tr)
    | (Except.ok _, tr1) =>
      match ChrootExec env.cmdEnv e.root "dbus-daemon --system" with
      | (Except.error err, tr2) => (Except.error err, e, tr1 ++ tr2)
      | (Except.ok _, tr2) =>
          (Except.ok (), { e with dbusActive := true }, tr1 ++ tr2)

/-- `pkg.EopkgManager.killDBUS`: no-op when inactive; otherwise open the
recorded pid file (an open failure returns that error with the state
unchanged, because the deferred cleanup that clears the flag is only
installed after a successful open), read it, kill the recorded pid, and
via the deferred cleanup remove the pid file and clear the active flag. -/
def killDBUS (env : PkgEnv) (e : EopkgManager) :
    Except String Unit × EopkgManager × List Event :=
  if e.dbusActive then
    let fpath := filepathJoin [e.root, "var/run/dbus/pid"]
    match env.openFile fpath with
    | Except.error err => (Except.error err, e, [Event.openReadEv fpath])
    | Except.ok _ =>
      match env.readAll fpath with
      | Except.error err =>
          (Except.error err, { e with dbusActive := false },
            [Event.openReadEv fpath, Event.readFileEv fpath, Event.removeEv fpath])
      | Except.ok b =>
        let pid := String.mk (b.toList.takeWhile (fun c => c ≠ '\n'))
        let (res, tr) := ExecStdoutArgs env.cmdEnv "kill" ["-9", pid]
        (res, { e with dbusActive := false },
          [Event.openReadEv fpath, Event.readFileEv fpath] ++ tr ++ [Event.removeEv fpath])
  else (Except.ok (), e, [])

/-- `pkg.EopkgManager.configureDbus`: create the messagebus group and
system user inside the root. -/
def configureDbus (env : PkgEnv) (e : EopkgManager) :
    Except String Unit × List Event :=
  match AddGroup env.cmdEnv e.root "messagebus" 18 with
  | (Except.error err, tr) => (Except.error err, tr)
  | (Except.ok _, tr1) =>
    let (r, tr2) := AddSystemUser env.cmdEnv e.root "messagebus"
      "D-Bus Message Daemon" "/var/run/dbus" "/bin/false" 18 18
    (r, tr1 ++ tr2)

/-- `pkg.EopkgManager.FinalizeRoot`: unmount the cache, copy the
baselayout, refresh the linker cache, create the dbus accounts and the
device nodes, start dbus, run `eopkg configure-pending` (stopping dbus
before propagating a failure there), stop dbus, and delete the cache. -/
def FinalizeRoot (env : PkgEnv) (e : EopkgManager) :
    Except String Unit × EopkgManager × List Event :=
  match env.unmount e.cacheTarget with
  | Except.error err => (Except.error err, e, [Event.unmountEv e.cacheTarget])
  | Except.ok _ =>
    let t1 : List Event := [Event.unmountEv e.cacheTarget]
    match copyBaselayout env e with
    | (Except.error err, tr) => (Except.error err, e, t1 ++ tr)
    | (Except.ok _, tr2) =>
      let t2 := t1 ++ tr2
      match ChrootExec env.cmdEnv e.root "ldconfig" with
      | (Except.error err, tr) => (Except.error err, e, t2 ++ tr)
      | (Except.ok _, tr3) =>
        let t3 := t2 ++ tr3
        match configureDbus env e with
        | (Except.error err, tr) => (Except.error err, e, t3 ++ tr)
        | (Except.ok _, tr4) =>
          let t4 := t3 ++ tr4
          match env.createDeviceNode e.root DeviceNode.random with
          | Except.error err =>
              (Except.error err, e, t4 ++ [Event.mknodEv e.root DeviceNode.random])
          | Except.ok _ =>
            let t5 := t4 ++ [Event.mknodEv e.root DeviceNode.random]
            match env.createDeviceNode e.root DeviceNode.urandom with
            | Except.error err =>
                (Except.error err, e, t5 ++ [Event.mknodEv e.root DeviceNode.urandom])
            | Except.ok _ =>
              let t6 := t5 ++ [Event.mknodEv e.root DeviceNode.urandom]
              match startDBUS env e with
              | (Except.error err, e1, tr) => (Except.error err, e1, t6 ++ tr)
              | (Except.ok _, e1, tr7) =>
                let t7 := t6 ++ tr7
                match ChrootExec env.cmdEnv e1.root "eopkg configure-pending" with
                | (Except.error err, tr) =>
                  let (_, e2, trk) := killDBUS env e1
                  (Except.error err, e2, t7 ++ tr ++ trk)
                | (Except.ok _, tr8) =>
                  let t8 := t7 ++ tr8
                  match killDBUS env e1 with
                  | (Except.error err, e2, trk) => (Except.error err, e2, t8 ++ trk)
                  | (Except.ok _, e2, trk) =>
                    let t9 := t8 ++ trk
                    let (r, tr10) := ChrootExec env.cmdEnv e2.root "eopkg delete-cache"
                    (r, e2, t9 ++ tr10)

/-- `pkg.EopkgManager.Cleanup`: just stop dbus. -/
def Cleanup (env : PkgEnv) (e : EopkgManager) :
    Except String Unit × EopkgManager × List Event :=
  killDBUS env e

/-- `pkg.EopkgManager.eopkgExecRoot`: run `eopkg`, appending
`-D <root>` in target mode. -/
def eopkgExecRoot (env : CmdEnv) (e : EopkgManager) (args : List String) :
    Except String Unit × List Event :=
  if !e.targetMode then ExecStdoutArgs env "eopkg" args
  else ExecStdoutArgs env "eopkg" (args ++ ["-D", e.root])

/-- `pkg.EopkgManager.AddRepo`. -/
def AddRepo (env : CmdEnv) (e : EopkgManager) (identifier uri : String) :
    Except String Unit × List Event :=
  eopkgExecRoot env e ["add-repo", identifier, uri]

/-- `pkg.EopkgManager.InstallGroups`: `install -y`, `--ignore-comar` in
target mode, `-c <comp>` pairs, optional `--ignore-safety`. -/
def InstallGroups (env : CmdEnv) (e : EopkgManager) (ignoreSafety : Bool)
    (groups : List String) : Except String Unit × List Event :=
  let componentNames := (groups.map (fun comp => ["-c", comp])).flatten
  let cmd := ["install", "-y"]
  let cmd := if e.targetMode then cmd ++ ["--ignore-comar"] else cmd
  let cmd := cmd ++ componentNames
  let cmd := if ignoreSafety then cmd ++ ["--ignore-safety"] else cmd
  eopkgExecRoot env e cmd

/-- `pkg.EopkgManager.InstallPackages`: `install -y`, `--ignore-comar`
in target mode, the package names, optional `--ignore-safety`. -/
def InstallPackages (env : CmdEnv) (e : EopkgManager) (ignoreSafety : Bool)
    (packages : List String) : Except String Unit × List Event :=
  let cmd := ["install", "-y"]
  let cmd := if e.targetMode then cmd ++ ["--ignore-comar"] else cmd
  let cmd := cmd ++ packages
  let cmd := if ignoreSafety then cmd ++ ["--ignore-safety"] else cmd
  eopkgExecRoot env e cmd

/-! ### Auxiliary definitions for the theorems -/

/-- Last element of an argument list (empty string when empty). -/
def lastArg : List String → String
  | [] => ""
  | [a] => a
  | _ :: b :: rest => lastArg (b :: rest)

/-- Whether an event is the launch of the background message-bus
daemon (`dbus-daemon --system` as the shell command of a chroot). -/
def isDaemonLaunch : Event → Bool
  | .spawnEv _ _ args => lastArg args = "dbus-daemon --system"
  | _ => false

/-- Number of message-bus daemon launches in a trace. -/
def launchCount (tr : List Event) : Nat := (tr.filter isDaemonLaunch).length

/-! ### Concrete environments for witnesses and counterexamples -/

/-- A command environment where path lookup and every process succeed. -/
def okCmdEnv : CmdEnv :=
  { lookPath := fun c => Except.ok c
    run := fun _ _ _ => Except.ok () }

/-- A command environment where exactly the `eopkg configure-pending`
shell command fails. -/
def cfgFailCmdEnv : CmdEnv :=
  { lookPath := fun c => Except.ok c
    run := fun _ _ args =>
      if "eopkg configure-pending" ∈ args then Except.error "configure failed"
      else Except.ok () }

/-- A file environment where every operation succeeds. -/
def okFsEnv : FsEnv :=
  { stat := fun _ => Except.ok { mode := 420, isDir := false, modTime := 0 }
    openRead := fun _ => Except.ok ()
    openWrite := fun _ => Except.ok ()
    copyData := fun _ _ => Except.ok () }

/-- A file environment where stat always fails. -/
def statFailFsEnv : FsEnv :=
  { okFsEnv with stat := fun _ => Except.error "ENOENT" }

/-- A package environment where everything succeeds; the baselayout
directory is empty and the pid file reads as `"123\n"`. -/
def okPkgEnv : PkgEnv :=
  { cmdEnv := okCmdEnv
    fsEnv := okFsEnv
    mkdirAll := fun _ => Except.ok ()
    symlink := fun _ _ => Except.ok ()
    bindMount := fun _ _ => Except.ok ()
    unmount := fun _ => Except.ok ()
    readDir := fun _ => Except.ok []
    openFile := fun _ => Except.ok ()
    readAll := fun _ => Except.ok "123\n"
    createDeviceNode := fun _ _ => Except.ok () }

/-- As `okPkgEnv` but the cache unmount fails. -/
def unmountFailEnv : PkgEnv :=
  { okPkgEnv with unmount := fun _ => Except.error "not mounted" }

/-- As `okPkgEnv` but opening the pid file fails. -/
def pidMissingEnv : PkgEnv :=
  { okPkgEnv with openFile := fun _ => Except.error "ENOENT" }

/-- As `okPkgEnv` but `eopkg configure-pending` fails and the pid
file cannot be opened. -/
def cfgFailEnv : PkgEnv :=
  { okPkgEnv with cmdEnv := cfgFailCmdEnv, openFile := fun _ => Except.error "ENOENT" }

/-- A squashfs environment with working directory `/cwd` where stat
and every process succeed (sources stat as plain files). -/
def squashOkEnv : SquashEnv :=
  { cwd := "/cwd", getwdOk := true, stat := okFsEnv.stat, cmdEnv := okCmdEnv }

/-- As `okPkgEnv` but `eopkg configure-pending` fails (the pid file
still opens fine). -/
def cfgStopOkEnv : PkgEnv :=
  { okPkgEnv with cmdEnv := cfgFailCmdEnv }

/-- A manager that has prepared root `/r` and has no live dbus. -/
def inactiveMgr : EopkgManager :=
  { root := "/r", cacheTarget := "/ct", targetMode := true, dbusActive := false,
    cacheSource := "/src" }

/-- A manager that has prepared root `/r` with dbus marked active. -/
def activeMgr : EopkgManager :=
  { inactiveMgr with dbusActive := true }

/-! ### Shared helper lemmas -/

/-- The three possible outcomes of `startDBUS`: already active (no-op),
a sub-step failure with the state unchanged, or success with the active
flag set. -/
lemma startDBUS_cases (env : PkgEnv) (e : EopkgManager) :
    (e.dbusActive = true ∧ startDBUS env e = (Except.ok (), e, [])) ∨
    (∃ err tr, startDBUS env e = (Except.error err, e, tr)) ∨
    (∃ tr, startDBUS env e = (Except.ok (), { e with dbusActive := true }, tr)) := by
  unfold startDBUS
  by_cases hb : e.dbusActive = true
  · exact Or.inl ⟨hb, by simp [hb]⟩
  · simp only [if_neg hb]
    right
    split
    · exact Or.inl ⟨_, _, rfl⟩
    · split
      · exact Or.inl ⟨_, _, rfl⟩
      · exact Or.inr ⟨_, rfl⟩

/-- `startDBUS` never changes the recorded root. -/
lemma startDBUS_root_eq (env : PkgEnv) (e : EopkgManager) :
    (startDBUS env e).2.1.root = e.root := by
  rcases startDBUS_cases env e with ⟨_, h⟩ | ⟨err, tr, h⟩ | ⟨tr, h⟩ <;> rw [h]

/-- A successful `startDBUS` leaves the active flag set. -/
lemma startDBUS_ok_active (env : PkgEnv) (e : EopkgManager)
    (h : (startDBUS env e).1 = Except.ok ()) :
    (startDBUS env e).2.1.dbusActive = true := by
  rcases startDBUS_cases env e with ⟨hb, hh⟩ | ⟨err, tr, hh⟩ | ⟨tr, hh⟩
  · rw [hh]; exact hb
  · rw [hh] at h; exact nomatch h
  · rw [hh]

/-- Once the pid file has been opened, `killDBUS` always clears the
active flag (the deferred cleanup runs on every remaining path). -/
lemma killDBUS_clears_of_open_ok (env : PkgEnv) (e : EopkgManager)
    (ha : e.dbusActive = true)
    (ho : env.openFile (filepathJoin [e.root, "var/run/dbus/pid"]) = Except.ok ()) :
    (killDBUS env e).2.1.dbusActive = false := by
  unfold killDBUS
  rw [ha]
  simp only [if_pos rfl, ho]
  cases env.readAll (filepathJoin [e.root, "var/run/dbus/pid"]) <;> simp

/-! ### C1 -/

/-- C1 counterexample: stop (`killDBUS`) called on an active supervisor
whose pid file cannot be opened reports the error but does NOT reset
the active flag — it remains `true`, refuting the claim that the flag
always clears once a stop attempt has been made. -/
theorem killDBUS_open_failure_counterexample :
    activeMgr.dbusActive = true ∧
    (killDBUS pidMissingEnv activeMgr).1 = Except.error "ENOENT" ∧
    (killDBUS pidMissingEnv activeMgr).2.1.dbusActive = true :=
  ⟨rfl, rfl, rfl⟩

/-- C1 (amended): on an active supervisor, if opening the recorded pid
file fails, `killDBUS` returns that error with the active flag left
set; once the pid file has been opened successfully, the active flag
always clears before returning, regardless of whether reading the file
or the termination signal succeeded. -/
theorem killDBUS_flag_semantics (env : PkgEnv) (e : EopkgManager)
    (ha : e.dbusActive = true) :
    (∀ err, env.openFile (filepathJoin [e.root, "var/run/dbus/pid"]) = Except.error err →
      killDBUS env e =
        (Except.error err, e,
          [Event.openReadEv (filepathJoin [e.root, "var/run/dbus/pid"])])) ∧
    (env.openFile (filepathJoin [e.root, "var/run/dbus/pid"]) = Except.ok () →
      (killDBUS env e).2.1.dbusActive = false) := by
  constructor
  · intro err hop
    unfold killDBUS
    rw [ha]
    simp only [if_pos rfl, hop]
    rfl
  · intro hop
    exact killDBUS_clears_of_open_ok env e ha hop

/-- Witness for C1: the open-failure case keeps the flag, the
open-success case clears it, at concrete environments. -/
theorem killDBUS_flag_semantics_witness :
    killDBUS pidMissingEnv activeMgr =
      (Except.error "ENOENT", activeMgr,
        [Event.openReadEv (filepathJoin [activeMgr.root, "var/run/dbus/pid"])]) ∧
    (killDBUS okPkgEnv activeMgr).2.1.dbusActive = false :=
  ⟨(killDBUS_flag_semantics pidMissingEnv activeMgr rfl).1 "ENOENT" rfl,
   (killDBUS_flag_semantics okPkgEnv activeMgr rfl).2 rfl⟩

/-- Any spawn event in the trace of `ExecStdoutArgsDir` carries the
requested working directory and argument list. -/
lemma ExecStdoutArgsDir_spawn_dir (cenv : CmdEnv) (dir c0 : String)
    (args : List String) (d : Option String) (c : String) (a : List String)
    (h : Event.spawnEv d c a ∈ (ExecStdoutArgsDir cenv dir c0 args).2) :
    d = some dir ∧ a = args := by
  unfold ExecStdoutArgsDir at h
  split at h
  · simp at h
  · simp at h
    exact ⟨h.1, h.2.2⟩

/-! ### C2 -/

/-- C2 counterexample: with working directory `/cwd`, source `/a/src`,
output `/b/out.img` and gzip compression, `CreateSquashfs` spawns the
tool with working directory `/a` — the parent of the SOURCE's absolute
path — which differs from `/b`, the parent of `outputFile`'s absolute
path, refuting the claim. -/
theorem CreateSquashfs_workdir_counterexample :
    (CreateSquashfs squashOkEnv "/a/src" "/b/out.img" "gzip").2 =
      [Event.statEv "/a/src",
        Event.spawnEv (some "/a") "mksquashfs"
          ["/a/src", "/b/out.img", "-comp", "gzip"]] ∧
    fAbs squashOkEnv.cwd squashOkEnv.getwdOk "/b/out.img" = Except.ok "/b/out.img" ∧
    Dir "/b/out.img" = "/b" ∧
    (some "/a" : Option String) ≠ some "/b" :=
  ⟨rfl, rfl, rfl, by decide⟩

/-- C2 (amended): whenever `CreateSquashfs` spawns the external tool,
the tool's working directory is the parent directory of the absolute
path of `path` — the source tree argument — not of `outputFile`. -/
theorem CreateSquashfs_workdir_source_parent (env : SquashEnv)
    (path outputFile ct : String) (d : Option String) (c : String)
    (a : List String)
    (h : Event.spawnEv d c a ∈ (CreateSquashfs env path outputFile ct).2) :
    ∃ fp, fAbs env.cwd env.getwdOk path = Except.ok fp ∧ d = some (Dir fp) := by
  unfold CreateSquashfs at h
  split at h
  · simp at h
  · next fp heqA =>
    refine ⟨fp, heqA, ?_⟩
    split at h
    · simp at h
    · split at h <;> split at h <;> simp at h
      all_goals exact (ExecStdoutArgsDir_spawn_dir _ _ _ _ _ _ _ h).1

/-- Witness for C2 at the concrete spawn of the counterexample input. -/
theorem CreateSquashfs_workdir_source_parent_witness :
    ∃ fp, fAbs squashOkEnv.cwd squashOkEnv.getwdOk "/a/src" = Except.ok fp ∧
      (some "/a" : Option String) = some (Dir fp) :=
  CreateSquashfs_workdir_source_parent squashOkEnv "/a/src" "/b/out.img" "gzip"
    (some "/a") "mksquashfs" ["/a/src", "/b/out.img", "-comp", "gzip"] (by decide)

/-! ### C4 -/

/-- C4: for every environment, sourcePath and outputFile, calling
`CreateSquashfs` with a compression kind outside {gzip, xz} returns an
error and its trace contains no process spawn. -/
theorem CreateSquashfs_unknown_compression_rejected (env : SquashEnv)
    (path outputFile ct : String) (h1 : ct ≠ CompressionGzip)
    (h2 : ct ≠ CompressionXZ) :
    (∃ msg, (CreateSquashfs env path outputFile ct).1 = Except.error msg) ∧
    (CreateSquashfs env path outputFile ct).2.filter isSpawn = [] := by
  unfold CreateSquashfs
  split
  · exact ⟨⟨_, rfl⟩, rfl⟩
  · split
    · exact ⟨⟨_, rfl⟩, rfl⟩
    · unfold GetSquashfsArgs
      simp only [if_neg h1, if_neg h2]
      exact ⟨⟨_, rfl⟩, rfl⟩

/-- Witness for C4 with the unsupported kind `"zstd"`. -/
theorem CreateSquashfs_unknown_compression_rejected_witness :
    (∃ msg, (CreateSquashfs squashOkEnv "/a/src" "/b/out.img" "zstd").1 =
      Except.error msg) ∧
    (CreateSquashfs squashOkEnv "/a/src" "/b/out.img" "zstd").2.filter isSpawn = [] :=
  CreateSquashfs_unknown_compression_rejected squashOkEnv "/a/src" "/b/out.img" "zstd"
    (by decide) (by decide)

/-! ### C8 -/

/-- C8 counterexample: with 64-bit Go `int` arithmetic,
`CreateSparseFile` at `sizeMB = 18446744073710` succeeds but the
`ftruncate` length `int64(sizeMB * 1000 * 1000)` wraps modulo `2^64` to
`448384`, not `sizeMB * 1,000,000` — refuting the claim for every
non-negative `sizeMB`. -/
theorem CreateSparseFile_overflow_counterexample :
    (0 : Int) ≤ 18446744073710 ∧
    (CreateSparseFile ⟨true, true⟩ "/backing.img" 18446744073710).1 = Except.ok () ∧
    (CreateSparseFile ⟨true, true⟩ "/backing.img" 18446744073710).2 = some 448384 ∧
    (448384 : Int) ≠ 18446744073710 * 1000000 := by
  exact ⟨by norm_num, rfl, rfl, by norm_num⟩

/-- C8 (amended): for every non-negative `sizeMB` whose byte size
`sizeMB * 1,000,000` fits in a signed 64-bit integer, a successful
`CreateSparseFile` produces a file of logical size exactly
`sizeMB * 1,000,000` bytes. -/
theorem CreateSparseFile_size_exact (env : SparseEnv) (filename : String)
    (n : Int) (h0 : 0 ≤ n) (hsmall : n * 1000000 < 2 ^ 63)
    (hok : (CreateSparseFile env filename n).1 = Except.ok ()) :
    (CreateSparseFile env filename n).2 = some (n * 1000000) := by
  have hnn : (0 : Int) ≤ n * 1000000 := mul_nonneg h0 (by norm_num)
  have hwrap : toInt64 (n * 1000 * 1000) = n * 1000000 := by
    unfold toInt64
    have hmul : n * 1000 * 1000 = n * 1000000 := by ring
    rw [hmul]
    have hlo : (0 : Int) ≤ n * 1000000 + 2 ^ 63 := by positivity
    have hhi : n * 1000000 + 2 ^ 63 < 2 ^ 64 := by
      have : (2 : Int) ^ 63 + 2 ^ 63 = 2 ^ 64 := by norm_num
      linarith
    rw [Int.emod_eq_of_lt hlo hhi]
    ring
  unfold CreateSparseFile at hok ⊢
  rw [hwrap] at hok ⊢
  rcases env with ⟨o, f⟩
  cases o with
  | false => exact nomatch hok
  | true =>
    rw [if_neg (not_lt.mpr hnn)] at hok ⊢
    cases f with
    | false => exact nomatch hok
    | true => rfl

/-- Witness for C8: `CreateSparseFile` at 10 MB yields logical size
exactly 10,000,000 bytes. -/
theorem CreateSparseFile_size_exact_witness :
    (CreateSparseFile ⟨true, true⟩ "/backing.img" 10).2 = some 10000000 := by
  have h := CreateSparseFile_size_exact ⟨true, true⟩ "/backing.img" 10
    (by norm_num) (by norm_num) rfl
  simpa using h

/-! ### C9 -/

/-- `startDBUS` on an active supervisor is an immediate success with no
events. -/
lemma startDBUS_active_noop (env : PkgEnv) (s : EopkgManager)
    (hs : s.dbusActive = true) : startDBUS env s = (Except.ok (), s, []) := by
  unfold startDBUS
  rw [hs]
  simp

/-- The full shape of a successful `startDBUS` from the inactive state:
the resolved `chroot` command is spawned once for `dbus-uuidgen` and
once for `dbus-daemon`, and the flag is set. -/
lemma startDBUS_ok_shape (env : PkgEnv) (e : EopkgManager)
    (h0 : e.dbusActive = false) (h1 : (startDBUS env e).1 = Except.ok ()) :
    ∃ c, execHelper env.cmdEnv "chroot" = Except.ok c ∧
      startDBUS env e = (Except.ok (), { e with dbusActive := true },
        [Event.spawnEv none c [e.root, "/bin/sh", "-c", "dbus-uuidgen --ensure"],
          Event.spawnEv none c [e.root, "/bin/sh", "-c", "dbus-daemon --system"]]) := by
  unfold startDBUS at h1 ⊢
  rw [h0] at h1 ⊢
  simp only [Bool.false_eq_true, if_false] at h1 ⊢
  split at h1
  · exact nomatch h1
  · next a1 tr1 heq1 =>
    split at h1
    · exact nomatch h1
    · next a2 tr2 heq2 =>
      unfold ChrootExec ExecStdoutArgs at heq1 heq2
      split at heq1
      · simp at heq1
      · next cmd hE =>
        split at heq2
        · simp at heq2
        · next cmd2 hE2 =>
          rw [hE] at hE2
          injection hE2 with hc
          injection heq1 with hr1 ht1
          injection heq2 with hr2 ht2
          subst hc
          rw [← ht1, ← ht2]
          exact ⟨cmd, hE, rfl⟩

/-- C9: start() on an already-active supervisor returns success at once
with no events; from an inactive supervisor, a successful start()
followed by a second start() performs exactly one underlying
`dbus-daemon --system` launch in total, the second call being a no-op. -/
theorem startDBUS_idempotent (env : PkgEnv) (e : EopkgManager)
    (h0 : e.dbusActive = false) (h1 : (startDBUS env e).1 = Except.ok ()) :
    startDBUS env (startDBUS env e).2.1 = (Except.ok (), (startDBUS env e).2.1, []) ∧
    launchCount ((startDBUS env e).2.2 ++
      (startDBUS env (startDBUS env e).2.1).2.2) = 1 := by
  obtain ⟨c, hE, hshape⟩ := startDBUS_ok_shape env e h0 h1
  have hactive : (startDBUS env e).2.1.dbusActive = true := by rw [hshape]
  have hsecond := startDBUS_active_noop env (startDBUS env e).2.1 hactive
  refine ⟨hsecond, ?_⟩
  rw [hsecond, hshape]
  simp [launchCount, isDaemonLaunch, lastArg]

/-- Witness for C9: two successive starts at a concrete all-ok
environment: the second is a no-op and exactly one daemon launch
appears in the combined trace. -/
theorem startDBUS_idempotent_witness :
    startDBUS okPkgEnv (startDBUS okPkgEnv inactiveMgr).2.1 =
      (Except.ok (), (startDBUS okPkgEnv inactiveMgr).2.1, []) ∧
    launchCount ((startDBUS okPkgEnv inactiveMgr).2.2 ++
      (startDBUS okPkgEnv (startDBUS okPkgEnv inactiveMgr).2.1).2.2) = 1 :=
  startDBUS_idempotent okPkgEnv inactiveMgr rfl rfl

/-! ### C5 -/

/-- C5: in every finalize() run, if step 1 (unmounting the cache bind
mount) fails, finalize aborts immediately with that error, the manager
state is unchanged, and the trace is the sole unmount attempt — in
particular no baselayout copy (or any later step) is executed. -/
theorem FinalizeRoot_unmount_failure_aborts (env : PkgEnv) (e : EopkgManager)
    (err : String) (h : env.unmount e.cacheTarget = Except.error err) :
    FinalizeRoot env e = (Except.error err, e, [Event.unmountEv e.cacheTarget]) := by
  unfold FinalizeRoot
  rw [h]

/-- Witness for C5 at a concrete environment whose unmount fails. -/
theorem FinalizeRoot_unmount_failure_aborts_witness :
    FinalizeRoot unmountFailEnv inactiveMgr =
      (Except.error "not mounted", inactiveMgr, [Event.unmountEv "/ct"]) :=
  FinalizeRoot_unmount_failure_aborts unmountFailEnv inactiveMgr "not mounted" rfl

/-! ### C6 -/

/-- C6: for every source and dest path, if stat-ing the source in
`CopyFile` fails, `CopyFile` returns success (`nil`) and the trace
shows only the stat: nothing was opened, created or written. -/
theorem CopyFile_stat_failure_silent_success (env : FsEnv) (source dest : String)
    (msg : String) (h : env.stat source = Except.error msg) :
    CopyFile env source dest = (Except.ok (), [Event.statEv source]) := by
  unfold CopyFile
  rw [h]

/-- Witness for C6 at a concrete environment with a missing source. -/
theorem CopyFile_stat_failure_silent_success_witness :
    CopyFile statFailFsEnv "/missing" "/dest" =
      (Except.ok (), [Event.statEv "/missing"]) :=
  CopyFile_stat_failure_silent_success statFailFsEnv "/missing" "/dest" "ENOENT" rfl

/-! ### C7 -/

/-- C7: for every path and every filesystem-type name other than
`"ext4"`, both `FormatAs` and `CheckFS` fail with an error naming the
requested filesystem type, with an empty trace (no external
invocation). -/
theorem unknown_filesystem_rejected (env : CmdEnv) (filename filesystem : String)
    (h : filesystem ≠ "ext4") :
    FormatAs env filename filesystem =
      (Except.error ("Cannot format with unknown filesystem '" ++ filesystem ++ "'"),
        []) ∧
    CheckFS env filename filesystem =
      (Except.error ("Cannot check with unknown filesystem '" ++ filesystem ++ "'"),
        []) := by
  unfold FormatAs CheckFS filesystemCommands checkCommands
  simp [if_neg h]

/-- Witness for C7 with the unregistered name `"unknown-fs"`. -/
theorem unknown_filesystem_rejected_witness :
    FormatAs okCmdEnv "/img" "unknown-fs" =
      (Except.error "Cannot format with unknown filesystem 'unknown-fs'", []) ∧
    CheckFS okCmdEnv "/img" "unknown-fs" =
      (Except.error "Cannot check with unknown filesystem 'unknown-fs'", []) :=
  unknown_filesystem_rejected okCmdEnv "/img" "unknown-fs" (by decide)

/-! ### C3 -/

/-- C3 counterexample: in a run where steps 1–6 succeed, step 7
(`eopkg configure-pending`) fails and the pid file cannot be opened,
finalize propagates the step-7 error but the supervisor is left
ACTIVE, refuting the claim that it always ends inactive. -/
theorem FinalizeRoot_step7_counterexample :
    (startDBUS cfgFailEnv inactiveMgr).1 = Except.ok () ∧
    (ChrootExec cfgFailEnv.cmdEnv inactiveMgr.root "eopkg configure-pending").1 =
      Except.error "configure failed" ∧
    (FinalizeRoot cfgFailEnv inactiveMgr).1 = Except.error "configure failed" ∧
    (FinalizeRoot cfgFailEnv inactiveMgr).2.1.dbusActive = true :=
  ⟨rfl, rfl, rfl, rfl⟩

/-- C3 (amended): when steps 1–6 of finalize succeed and step 7 (the
configure-pending hook) fails, the stop action (`killDBUS`) is invoked
before the step-7 error is propagated: finalize returns that error, its
final state is exactly the state `killDBUS` produces, whose trace ends
the run; the supervisor ends inactive provided the recorded pid file
could be opened (if opening it fails, it remains active). -/
theorem FinalizeRoot_step7_cleanup (env : PkgEnv) (e : EopkgManager) (err : String)
    (h1 : env.unmount e.cacheTarget = Except.ok ())
    (h2 : (copyBaselayout env e).1 = Except.ok ())
    (h3 : (ChrootExec env.cmdEnv e.root "ldconfig").1 = Except.ok ())
    (h4 : (configureDbus env e).1 = Except.ok ())
    (h5 : env.createDeviceNode e.root DeviceNode.random = Except.ok ())
    (h6 : env.createDeviceNode e.root DeviceNode.urandom = Except.ok ())
    (h7 : (startDBUS env e).1 = Except.ok ())
    (h8 : (ChrootExec env.cmdEnv e.root "eopkg configure-pending").1 =
      Except.error err) :
    (FinalizeRoot env e).1 = Except.error err ∧
    (FinalizeRoot env e).2.1 = (killDBUS env (startDBUS env e).2.1).2.1 ∧
    (∃ pre, (FinalizeRoot env e).2.2 =
      pre ++ (killDBUS env (startDBUS env e).2.1).2.2) ∧
    (env.openFile (filepathJoin [e.root, "var/run/dbus/pid"]) = Except.ok () →
      (FinalizeRoot env e).2.1.dbusActive = false) := by
  have hact := startDBUS_ok_active env e h7
  have hroot := startDBUS_root_eq env e
  unfold FinalizeRoot
  rw [h1]
  dsimp only
  rcases hcb : copyBaselayout env e with ⟨r2, t2⟩
  rw [hcb] at h2
  dsimp only at h2
  subst h2
  dsimp only
  rcases hld : ChrootExec env.cmdEnv e.root "ldconfig" with ⟨r3, t3⟩
  rw [hld] at h3
  dsimp only at h3
  subst h3
  dsimp only
  rcases hcd : configureDbus env e with ⟨r4, t4⟩
  rw [hcd] at h4
  dsimp only at h4
  subst h4
  dsimp only
  rw [h5]
  dsimp only
  rw [h6]
  dsimp only
  rcases hsd : startDBUS env e with ⟨r7, e1, t7⟩
  rw [hsd] at h7 hact hroot
  dsimp only at h7 hact hroot
  subst h7
  dsimp only
  rw [hroot]
  rcases hc7 : ChrootExec env.cmdEnv e.root "eopkg configure-pending" with ⟨r8, t8⟩
  rw [hc7] at h8
  dsimp only at h8
  subst h8
  dsimp only
  rcases hk : killDBUS env e1 with ⟨rk, e2, tk⟩
  dsimp only
  refine ⟨rfl, rfl, ⟨_, rfl⟩, ?_⟩
  intro hop
  have hclear := killDBUS_clears_of_open_ok env e1 hact (by rw [hroot]; exact hop)
  rw [hk] at hclear
  exact hclear

/-- Witness for C3: a concrete run where steps 1–6 succeed, step 7
fails, and the pid file opens: finalize reports the step-7 error and
the supervisor ends inactive. -/
theorem FinalizeRoot_step7_cleanup_witness :
    (FinalizeRoot cfgStopOkEnv inactiveMgr).1 = Except.error "configure failed" ∧
    (FinalizeRoot cfgStopOkEnv inactiveMgr).2.1.dbusActive = false := by
  have h := FinalizeRoot_step7_cleanup cfgStopOkEnv inactiveMgr "configure failed"
    rfl rfl rfl rfl rfl rfl rfl rfl
  exact ⟨h.1, h.2.2.2 rfl⟩

/-! ### C10 -/

/-- In target mode, any spawn of `eopkgExecRoot` has the caller's
arguments suffixed with `-D <root>`. -/
lemma eopkgExecRoot_spawn (cenv : CmdEnv) (s : EopkgManager)
    (hs : s.targetMode = true) (args : List String) (d : Option String)
    (c : String) (a : List String)
    (h : Event.spawnEv d c a ∈ (eopkgExecRoot cenv s args).2) :
    a = args ++ ["-D", s.root] := by
  unfold eopkgExecRoot at h
  rw [hs] at h
  simp only [Bool.not_true, Bool.false_eq_true, if_false] at h
  unfold ExecStdoutArgs at h
  split at h
  · simp at h
  · simp at h
    exact h.2.2

/-- Any spawn of `InstallPackages` in target mode carries
`--ignore-comar` and ends with `-D <root>`. -/
lemma InstallPackages_spawn (cenv : CmdEnv) (s : EopkgManager)
    (hs : s.targetMode = true) (b : Bool) (ps : List String)
    (d : Option String) (c : String) (a : List String)
    (h : Event.spawnEv d c a ∈ (InstallPackages cenv s b ps).2) :
    "--ignore-comar" ∈ a ∧ ∃ pre, a = pre ++ ["-D", s.root] := by
  unfold InstallPackages at h
  rw [hs] at h
  simp only [if_pos rfl] at h
  have ha := eopkgExecRoot_spawn cenv s hs _ d c a h
  refine ⟨?_, _, ha⟩
  rw [ha]
  cases b <;> simp

/-- Any spawn of `InstallGroups` in target mode carries
`--ignore-comar` and ends with `-D <root>`. -/
lemma InstallGroups_spawn (cenv : CmdEnv) (s : EopkgManager)
    (hs : s.targetMode = true) (b : Bool) (gs : List String)
    (d : Option String) (c : String) (a : List String)
    (h : Event.spawnEv d c a ∈ (InstallGroups cenv s b gs).2) :
    "--ignore-comar" ∈ a ∧ ∃ pre, a = pre ++ ["-D", s.root] := by
  unfold InstallGroups at h
  rw [hs] at h
  simp only [if_pos rfl] at h
  have ha := eopkgExecRoot_spawn cenv s hs _ d c a h
  refine ⟨?_, _, ha⟩
  rw [ha]
  cases b <;> simp

/-- Any spawn of `AddRepo` in target mode ends with `-D <root>`. -/
lemma AddRepo_spawn (cenv : CmdEnv) (s : EopkgManager)
    (hs : s.targetMode = true) (i u : String)
    (d : Option String) (c : String) (a : List String)
    (h : Event.spawnEv d c a ∈ (AddRepo cenv s i u).2) :
    ∃ pre, a = pre ++ ["-D", s.root] := by
  unfold AddRepo at h
  exact ⟨_, eopkgExecRoot_spawn cenv s hs _ d c a h⟩

/-- Whatever happens inside `InitRoot`, the returned manager is in
target mode with the requested root recorded. -/
lemma InitRoot_state (env : PkgEnv) (e : EopkgManager) (root : String) :
    (InitRoot env e root).2.1.targetMode = true ∧
    (InitRoot env e root).2.1.root = root := by
  unfold InitRoot
  dsimp only
  repeat' split
  all_goals exact ⟨rfl, rfl⟩

/-- C10: `InitRoot` records the root and sets the target-mode flag
before any fallible operation, so even when it returns an error the
manager stays in target mode with that root, and the subsequently
constructed package-manager commands carry the target-mode arguments
(`--ignore-comar` for installs, and a `-D <root>` suffix). -/
theorem InitRoot_target_mode_persists (env : PkgEnv) (e : EopkgManager)
    (root : String) :
    (InitRoot env e root).2.1.targetMode = true ∧
    (InitRoot env e root).2.1.root = root ∧
    (∀ (cenv : CmdEnv) (b : Bool) (ps : List String) (d : Option String)
        (c : String) (a : List String),
      Event.spawnEv d c a ∈
          (InstallPackages cenv (InitRoot env e root).2.1 b ps).2 →
      "--ignore-comar" ∈ a ∧ ∃ pre, a = pre ++ ["-D", root]) ∧
    (∀ (cenv : CmdEnv) (b : Bool) (gs : List String) (d : Option String)
        (c : String) (a : List String),
      Event.spawnEv d c a ∈
          (InstallGroups cenv (InitRoot env e root).2.1 b gs).2 →
      "--ignore-comar" ∈ a ∧ ∃ pre, a = pre ++ ["-D", root]) ∧
    (∀ (cenv : CmdEnv) (i u : String) (d : Option String)
        (c : String) (a : List String),
      Event.spawnEv d c a ∈ (AddRepo cenv (InitRoot env e root).2.1 i u).2 →
      ∃ pre, a = pre ++ ["-D", root]) := by
  obtain ⟨hm, hr⟩ := InitRoot_state env e root
  refine ⟨hm, hr, ?_, ?_, ?_⟩
  · intro cenv b ps d c a h
    have := InstallPackages_spawn cenv _ hm b ps d c a h
    rwa [hr] at this
  · intro cenv b gs d c a h
    have := InstallGroups_spawn cenv _ hm b gs d c a h
    rwa [hr] at this
  · intro cenv i u d c a h
    have := AddRepo_spawn cenv _ hm i u d c a h
    rwa [hr] at this

/-- Witness for C10: after a concrete `InitRoot`, a concrete
`InstallPackages` spawn carries the target-mode arguments. -/
theorem InitRoot_target_mode_persists_witness :
    (InitRoot okPkgEnv NewEopkgManager "/r").2.1.targetMode = true ∧
    ("--ignore-comar" ∈
        (["install", "-y", "--ignore-comar", "nano", "--ignore-safety",
          "-D", "/r"] : List String) ∧
      ∃ pre,
        (["install", "-y", "--ignore-comar", "nano", "--ignore-safety",
          "-D", "/r"] : List String) = pre ++ ["-D", "/r"]) :=
  ⟨(InitRoot_target_mode_persists okPkgEnv NewEopkgManager "/r").1,
    (InitRoot_target_mode_persists okPkgEnv NewEopkgManager "/r").2.2.1
      okCmdEnv true ["nano"] none "eopkg" _ (by decide)⟩

end Libosdev
